import Mathlib

/-
Verification of the OpenFDA adverse-drug-event query client
(`openfda_client.py`, `app.py`, and the legacy variant `src/openfda_client.py`).

Modelling conventions:
* A network response (`requests.get`) is either a transport-level exception
  (`requests.exceptions.RequestException` that is not an `HTTPError`) or an
  HTTP response carrying a status code and a parsed JSON body.  The parts of
  a body the client reads are the optional `results` array of
  `{"term", "count"}` pairs and the optional `meta.results.total` number.
* The network is a function from the requested URL to a response.  Each
  operation is a function of the network, the current cache and its
  arguments, returning the result, the list of URLs requested (in order),
  and the cache after the call.  `time.sleep` throttling is not observable
  in this model and is dropped.
* The TTL cache is modelled as an association list within one TTL window
  (no entry expires between the calls under consideration); `cache[k] = v`
  is a shadowing cons, matching dict-overwrite semantics.
* Error dictionaries `{"error": msg}` are modelled by a structured error
  type distinguishing the distinct `return {"error": ...}` sites; the raw
  interpolated message text (which embeds exception reprs) is abstracted.
* Python string methods used by the client (`lower`, `strip`, `replace`,
  `title`) are modelled by executable character-list functions with the
  same behaviour on the ASCII inputs involved.
-/

namespace ADE

/-- One `{"term": ..., "count": ...}` element of a JSON `results` array. -/
structure Entry where
  term : String
  count : Nat
deriving Repr, DecidableEq

/-- The parts of an OpenFDA JSON body the client reads: the optional
`results` array and the optional `meta.results.total` count. -/
structure Body where
  results : Option (List Entry)
  total : Option Nat
deriving Repr, DecidableEq

/-- Outcome of one `requests.get` call. -/
inductive Resp where
  | transportErr (msg : String)
  | http (status : Nat) (body : Body)
deriving Repr, DecidableEq

/-- The network, as a function from requested URL to response. -/
def Net : Type := String → Resp

/-- The distinct `return {"error": ...}` sites of the client. -/
inductive OpError where
  | emptyInput
  | notFound
  | httpError (status : Nat)
  | transportError (msg : String)
  | fieldRequestError (fieldName : String)
  | noData
deriving Repr, DecidableEq

/-- A successful payload: the fields of the returned dict that callers read.
`metaResultsTotal` is `meta.results.total`, `totalForQuery` is
`meta.total_reports_for_query`, `totalForDrug` is
`meta.results.total_for_drug`. -/
structure OkPayload where
  results : Option (List Entry)
  metaResultsTotal : Option Nat
  totalForQuery : Option Nat
  totalForDrug : Option Nat
deriving Repr, DecidableEq

/-- Result of one operation: an error dict or a success payload. -/
inductive Res where
  | err (e : OpError)
  | ok (p : OkPayload)
deriving Repr, DecidableEq

/-- Whether a result is a success payload. -/
def Res.isOk : Res → Bool
  | .ok _ => true
  | .err _ => false

/-- The TTL cache within one TTL window: an association list from cache key
to the stored success payload. -/
abbrev Cache := List (String × OkPayload)

/-- Lookup of a cache key (`cache_key in cache` / `cache[cache_key]`). -/
def cacheLookup : Cache → String → Option OkPayload
  | [], _ => none
  | (k, v) :: rest, key => if k = key then some v else cacheLookup rest key

/-- Store under a key (`cache[cache_key] = data`): shadowing cons. -/
def cacheInsert (c : Cache) (k : String) (v : OkPayload) : Cache :=
  (k, v) :: c

/-- Outcome of running one operation: the returned result, the URLs
requested over the network in order, and the cache afterwards. -/
structure RunOut where
  result : Res
  trace : List String
  cache : Cache
deriving Repr, DecidableEq

/-- Python `str.lower()` on the ASCII strings involved. -/
def pyLower (s : String) : String :=
  String.mk (s.data.map Char.toLower)

/-- Python `str.strip()`: drop leading and trailing whitespace. -/
def pyStrip (s : String) : String :=
  String.mk (((s.data.dropWhile Char.isWhitespace).reverse.dropWhile
    Char.isWhitespace).reverse)

/-- Replace every (leftmost, non-overlapping) occurrence of `pat` by `rep`,
as Python `str.replace` does.  Structural recursion on a fuel argument that
starts at the length of the list; every step consumes at least one
character, so the fuel never runs out on the real argument. -/
def replaceAllFuel (pat rep : List Char) : Nat → List Char → List Char
  | 0, l => l
  | _ + 1, [] => []
  | fuel + 1, c :: rest =>
    if pat.isPrefixOf (c :: rest) ∧ pat ≠ [] then
      rep ++ replaceAllFuel pat rep fuel (rest.drop (pat.length - 1))
    else
      c :: replaceAllFuel pat rep fuel rest

/-- Replace every occurrence of `pat` in `l` by `rep`. -/
def replaceAll (pat rep l : List Char) : List Char :=
  replaceAllFuel pat rep l.length l

/-- Python `str.replace pat rep` on strings. -/
def pyReplace (s pat rep : String) : String :=
  String.mk (replaceAll pat.data rep.data s.data)

/-- Helper for `pyTitle`: the boolean records whether the previous
character was alphabetic. -/
def pyTitleAux : Bool → List Char → List Char
  | _, [] => []
  | prevAlpha, c :: cs =>
    (if c.isAlpha then (if prevAlpha then c.toLower else c.toUpper) else c)
      :: pyTitleAux c.isAlpha cs

/-- Python `str.title()` on the ASCII strings involved: capitalise the
first letter of every alphabetic run, lower-case the rest. -/
def pyTitle (s : String) : String :=
  String.mk (pyTitleAux false s.data)

/-- Python `str(x)` of an optional string argument inside an f-string:
`None` prints as `"None"`, a string prints as itself. -/
def pyOptStr : Option String → String
  | none => "None"
  | some s => s

/-- Python `str(x)` of an optional `(min, max)` tuple inside an f-string:
`None` prints as `"None"`, a pair prints as `"(min, max)"`. -/
def pyOptPair : Option (Int × Int) → String
  | none => "None"
  | some (a, b) => "(" ++ toString a ++ ", " ++ toString b ++ ")"

/-- `response.raise_for_status()` raises `HTTPError` exactly for 4xx/5xx
status codes. -/
def raisesForStatus (st : Nat) : Bool :=
  400 ≤ st && st < 600

/-- Lookup in an association list of strings (Python `dict.get`). -/
def lookupStr : List (String × String) → String → Option String
  | [], _ => none
  | (k, v) :: rest, key => if k = key then some v else lookupStr rest key

def API_BASE_URL : String := "https://api.fda.gov/drug/event.json"

/-- `DRUG_SYNONYM_MAPPING`: brand name to generic name. -/
def DRUG_SYNONYM_MAPPING : List (String × String) := [
  ("tylenol", "acetaminophen"),
  ("advil", "ibuprofen"),
  ("motrin", "ibuprofen"),
  ("aleve", "naproxen"),
  ("benadryl", "diphenhydramine"),
  ("claritin", "loratadine"),
  ("zyrtec", "cetirizine"),
  ("allegra", "fexofenadine"),
  ("zantac", "ranitidine"),
  ("pepcid", "famotidine"),
  ("prilosec", "omeprazole"),
  ("lipitor", "atorvastatin"),
  ("zocor", "simvastatin"),
  ("norvasc", "amlodipine"),
  ("hydrochlorothiazide", "hctz"),
  ("glucophage", "metformin"),
  ("synthroid", "levothyroxine"),
  ("ambien", "zolpidem"),
  ("xanax", "alprazolam"),
  ("prozac", "fluoxetine"),
  ("zoloft", "sertraline"),
  ("paxil", "paroxetine"),
  ("lexapro", "escitalopram"),
  ("cymbalta", "duloxetine"),
  ("wellbutrin", "bupropion"),
  ("desyrel", "trazodone"),
  ("eliquis", "apixaban"),
  ("xarelto", "rivaroxaban"),
  ("pradaxa", "dabigatran"),
  ("coumadin", "warfarin"),
  ("januvia", "sitagliptin"),
  ("tradjenta", "linagliptin"),
  ("jardiance", "empagliflozin"),
  ("farxiga", "dapagliflozin"),
  ("invokana", "canagliflozin"),
  ("ozempic", "semaglutide"),
  ("victoza", "liraglutide"),
  ("trulicity", "dulaglutide"),
  ("humira", "adalimumab"),
  ("enbrel", "etanercept"),
  ("remicade", "infliximab"),
  ("stelara", "ustekinumab"),
  ("keytruda", "pembrolizumab"),
  ("opdivo", "nivolumab"),
  ("revlimid", "lenalidomide"),
  ("rituxan", "rituximab"),
  ("herceptin", "trastuzumab"),
  ("avastin", "bevacizumab"),
  ("spiriva", "tiotropium"),
  ("advair", "fluticasone/salmeterol"),
  ("symbicort", "budesonide/formoterol"),
  ("singulair", "montelukast"),
  ("lyrica", "pregabalin"),
  ("neurontin", "gabapentin"),
  ("topamax", "topiramate"),
  ("lamictal", "lamotrigine"),
  ("keppra", "levetiracetam"),
  ("dilantin", "phenytoin"),
  ("tegretol", "carbamazepine"),
  ("depakote", "divalproex"),
  ("vyvanse", "lisdexamfetamine"),
  ("adderall", "amphetamine/dextroamphetamine"),
  ("ritalin", "methylphenidate"),
  ("concerta", "methylphenidate"),
  ("focalin", "dexmethylphenidate"),
  ("strattera", "atomoxetine"),
  ("viagra", "sildenafil"),
  ("cialis", "tadalafil"),
  ("levitra", "vardenafil"),
  ("bactrim", "sulfamethoxazole/trimethoprim"),
  ("keflex", "cephalexin"),
  ("augmentin", "amoxicillin/clavulanate"),
  ("zithromax", "azithromycin"),
  ("levaquin", "levofloxacin"),
  ("cipro", "ciprofloxacin"),
  ("diflucan", "fluconazole"),
  ("tamiflu", "oseltamivir"),
  ("valtrex", "valacyclovir"),
  ("zofran", "ondansetron"),
  ("phenergan", "promethazine"),
  ("imitrex", "sumatriptan"),
  ("flexeril", "cyclobenzaprine"),
  ("soma", "carisoprodol"),
  ("valium", "diazepam"),
  ("ativan", "lorazepam"),
  ("klonopin", "clonazepam"),
  ("restoril", "temazepam"),
  ("ultram", "tramadol"),
  ("percocet", "oxycodone/acetaminophen"),
  ("vicodin", "hydrocodone/acetaminophen"),
  ("oxycontin", "oxycodone"),
  ("dilaudid", "hydromorphone"),
  ("morphine", "ms contin"),
  ("fentanyl", "duragesic")]

/-- `OUTCOME_MAPPING`: outcome code to label. -/
def OUTCOME_MAPPING : List (String × String) := [
  ("1", "Recovered/Resolved"),
  ("2", "Recovering/Resolving"),
  ("3", "Not Recovered/Not Resolved"),
  ("4", "Recovered/Resolved with Sequelae"),
  ("5", "Fatal"),
  ("6", "Unknown")]

/-- `QUALIFICATION_MAPPING`: primary-source qualification code to label. -/
def QUALIFICATION_MAPPING : List (String × String) := [
  ("1", "Physician"),
  ("2", "Pharmacist"),
  ("3", "Other Health Professional"),
  ("4", "Lawyer"),
  ("5", "Consumer or Non-Health Professional")]

/-- `SERIOUS_OUTCOME_FIELDS`: the existence-count fields queried by
`get_serious_outcomes`. -/
def SERIOUS_OUTCOME_FIELDS : List String := [
  "seriousnessdeath",
  "seriousnesslifethreatening",
  "seriousnesshospitalization",
  "seriousnessdisabling",
  "seriousnesscongenitalanomali",
  "seriousnessother"]

/-- `drug_name.lower().strip()` followed by
`DRUG_SYNONYM_MAPPING.get(name, name)`. -/
def processDrugName (s : String) : String :=
  let p := pyStrip (pyLower s)
  (lookupStr DRUG_SYNONYM_MAPPING p).getD p

/-- `QUALIFICATION_MAPPING.get(term_str, f"Unknown ({term_str})")`. -/
def qualLabel (t : String) : String :=
  (lookupStr QUALIFICATION_MAPPING t).getD ("Unknown (" ++ t ++ ")")

/-- Readable outcome name for a seriousness field:
`field.replace("seriousness", "").replace("anomali", "anomaly").title()`. -/
def outcomeName (fieldName : String) : String :=
  pyTitle (pyReplace (pyReplace fieldName "seriousness" "") "anomali" "anomaly")

/-- Stable insertion of an entry into a list sorted by descending count:
an element is placed before every later element with a count `≤` its own.
`insertDesc` and `sortByCountDesc` together model Python
`sorted(l, key=lambda x: x["count"], reverse=True)`, which is stable. -/
def insertDesc (e : Entry) : List Entry → List Entry
  | [] => [e]
  | x :: xs => if x.count ≤ e.count then e :: x :: xs else x :: insertDesc e xs

/-- Stable sort by descending count. -/
def sortByCountDesc : List Entry → List Entry
  | [] => []
  | e :: es => insertDesc e (sortByCountDesc es)

/-- `sum(item["count"] for item in results)`. -/
def sumCounts : List Entry → Nat
  | [] => 0
  | e :: es => e.count + sumCounts es

/-- The `search_terms` list of `get_top_adverse_events`: the drug clause,
then the sex clause when `patient_sex` is `"1"` or `"2"`, then the age
clause when `age_range` is present (a 2-tuple is always truthy). -/
def topSearchTerms (dn : String) (ps : Option String)
    (ar : Option (Int × Int)) : List String :=
  ["patient.drug.medicinalproduct:\"" ++ dn ++ "\""]
  ++ (match ps with
      | some s => if s = "1" ∨ s = "2" then ["patient.patientsex:\"" ++ s ++ "\""] else []
      | none => [])
  ++ (match ar with
      | some (mi, ma) =>
        ["patient.patientonsetage:[" ++ toString mi ++ " TO " ++ toString ma ++ "]"]
      | none => [])

/-- `search_query = "+AND+".join(search_terms)`. -/
def topSearchQuery (dn : String) (ps : Option String)
    (ar : Option (Int × Int)) : String :=
  String.intercalate "+AND+" (topSearchTerms dn ps ar)

/-- `f"top_events_{drug}_{limit}_{patient_sex}_{age_range}"`. -/
def topCacheKey (dn : String) (limit : Nat) (ps : Option String)
    (ar : Option (Int × Int)) : String :=
  "top_events_" ++ dn ++ "_" ++ toString limit ++ "_" ++ pyOptStr ps ++ "_"
    ++ pyOptPair ar

/-- The grouped-count URL of `get_top_adverse_events`. -/
def topCountUrl (dn : String) (limit : Nat) (ps : Option String)
    (ar : Option (Int × Int)) : String :=
  API_BASE_URL ++ "?search=" ++ topSearchQuery dn ps ar
    ++ "&count=patient.reaction.reactionmeddrapt.exact&limit=" ++ toString limit

/-- The total-count URL of `get_top_adverse_events`. -/
def topTotalUrl (dn : String) (ps : Option String)
    (ar : Option (Int × Int)) : String :=
  API_BASE_URL ++ "?search=" ++ topSearchQuery dn ps ar

/-- `get_top_adverse_events` of `openfda_client.py`.  On the success path
the second (total) query's `meta.results.total` is attached to the first
query's body as `meta.total_reports_for_query`; an `HTTPError` raised by
the total query reaches the outer handler, whose 404 test inspects the
first response (status < 400 here), so it returns the generic HTTP error
dict. -/
def get_top_adverse_events (net : Net) (cache : Cache) (drug_name : String)
    (limit : Nat) (patient_sex : Option String)
    (age_range : Option (Int × Int)) : RunOut :=
  if drug_name = "" then ⟨.err .emptyInput, [], cache⟩
  else
    let dn := processDrugName drug_name
    let key := topCacheKey dn limit patient_sex age_range
    match cacheLookup cache key with
    | some v => ⟨.ok v, [], cache⟩
    | none =>
      let url1 := topCountUrl dn limit patient_sex age_range
      match net url1 with
      | .transportErr m => ⟨.err (.transportError m), [url1], cache⟩
      | .http st body =>
        if raisesForStatus st then
          if st = 404 then ⟨.err .notFound, [url1], cache⟩
          else ⟨.err (.httpError st), [url1], cache⟩
        else
          let url2 := topTotalUrl dn patient_sex age_range
          match net url2 with
          | .transportErr m => ⟨.err (.transportError m), [url1, url2], cache⟩
          | .http st2 body2 =>
            if raisesForStatus st2 then
              ⟨.err (.httpError st2), [url1, url2], cache⟩
            else
              let payload : OkPayload :=
                ⟨body.results, body.total, some (body2.total.getD 0), none⟩
              ⟨.ok payload, [url1, url2], cacheInsert cache key payload⟩

/-- Cache key of the legacy `get_top_adverse_events`
(`src/openfda_client.py`): no sex/age components. -/
def legacyTopCacheKey (dn : String) (limit : Nat) : String :=
  "top_events_" ++ dn ++ "_" ++ toString limit

/-- Query URL of the legacy `get_top_adverse_events`. -/
def legacyTopUrl (dn : String) (limit : Nat) : String :=
  API_BASE_URL ++ "?search=patient.drug.medicinalproduct:\"" ++ dn
    ++ "\"&count=patient.reaction.reactionmeddrapt.exact&limit=" ++ toString limit

/-- `get_top_adverse_events` of the legacy `src/openfda_client.py`: one
query, no synonym resolution, no filters, no separate total query. -/
def legacy_get_top_adverse_events (net : Net) (cache : Cache)
    (drug_name : String) (limit : Nat) : RunOut :=
  if drug_name = "" then ⟨.err .emptyInput, [], cache⟩
  else
    let dn := pyStrip (pyLower drug_name)
    let key := legacyTopCacheKey dn limit
    match cacheLookup cache key with
    | some v => ⟨.ok v, [], cache⟩
    | none =>
      let url := legacyTopUrl dn limit
      match net url with
      | .transportErr m => ⟨.err (.transportError m), [url], cache⟩
      | .http st body =>
        if raisesForStatus st then
          if st = 404 then ⟨.err .notFound, [url], cache⟩
          else ⟨.err (.httpError st), [url], cache⟩
        else
          let payload : OkPayload := ⟨body.results, body.total, none, none⟩
          ⟨.ok payload, [url], cacheInsert cache key payload⟩

/-- `f"pair_freq_{drug}_{event}"`. -/
def pairCacheKey (dn en : String) : String :=
  "pair_freq_" ++ dn ++ "_" ++ en

/-- Drug-only URL of `get_drug_event_pair_frequency`. -/
def pairDrugUrl (dn : String) : String :=
  API_BASE_URL ++ "?search=patient.drug.medicinalproduct:\"" ++ dn ++ "\""

/-- Pair URL of `get_drug_event_pair_frequency`. -/
def pairPairUrl (dn en : String) : String :=
  API_BASE_URL ++ "?search=patient.drug.medicinalproduct:\"" ++ dn
    ++ "\"+AND+patient.reaction.reactionmeddrapt:\"" ++ en ++ "\""

/-- `get_drug_event_pair_frequency` of `openfda_client.py`.  A 404 on the
drug-only query is a hard `NotFound`; on the pair query anything other
than a 4xx/5xx status distinct from 404 leaves the pair total at 0 (for a
non-200 success status nothing is read from the body). -/
def get_drug_event_pair_frequency (net : Net) (cache : Cache)
    (drug_name event_name : String) : RunOut :=
  if drug_name = "" ∨ event_name = "" then ⟨.err .emptyInput, [], cache⟩
  else
    let dn := processDrugName drug_name
    let en := pyStrip (pyLower event_name)
    let key := pairCacheKey dn en
    match cacheLookup cache key with
    | some v => ⟨.ok v, [], cache⟩
    | none =>
      let url1 := pairDrugUrl dn
      match net url1 with
      | .transportErr m => ⟨.err (.transportError m), [url1], cache⟩
      | .http st body =>
        if raisesForStatus st then
          if st = 404 then ⟨.err .notFound, [url1], cache⟩
          else ⟨.err (.httpError st), [url1], cache⟩
        else
          let total_for_drug := body.total.getD 0
          let url2 := pairPairUrl dn en
          match net url2 with
          | .transportErr m => ⟨.err (.transportError m), [url1, url2], cache⟩
          | .http st2 body2 =>
            if st2 = 200 then
              let payload : OkPayload :=
                ⟨none, some (body2.total.getD 0), none, some total_for_drug⟩
              ⟨.ok payload, [url1, url2], cacheInsert cache key payload⟩
            else if st2 ≠ 404 ∧ raisesForStatus st2 then
              ⟨.err (.httpError st2), [url1, url2], cache⟩
            else
              let payload : OkPayload := ⟨none, some 0, none, some total_for_drug⟩
              ⟨.ok payload, [url1, url2], cacheInsert cache key payload⟩

/-- `f"serious_outcomes_aggregated_{drug}_{limit}"`. -/
def seriousCacheKey (dn : String) (limit : Nat) : String :=
  "serious_outcomes_aggregated_" ++ dn ++ "_" ++ toString limit

/-- Base search query of `get_serious_outcomes`. -/
def seriousBaseQuery (dn : String) : String :=
  "patient.drug.medicinalproduct:\"" ++ dn ++ "\"+AND+serious:1"

/-- Total-count URL of `get_serious_outcomes`. -/
def seriousTotalUrl (dn : String) : String :=
  API_BASE_URL ++ "?search=" ++ seriousBaseQuery dn

/-- Per-field existence-count URL of `get_serious_outcomes`. -/
def seriousFieldUrl (dn fieldName : String) : String :=
  API_BASE_URL ++ "?search=" ++ seriousBaseQuery dn ++ "+AND+_exists_:" ++ fieldName

/-- The per-field loop of `get_serious_outcomes`.  `aggregated_results` is
a Python dict in insertion order whose keys (the readable outcome names of
the fixed field list) are distinct, so it is modelled as an append list.
A status of 200 with a positive total adds an entry; a 404 (and any other
status `raise_for_status` tolerates) is skipped; a 4xx/5xx other than 404,
or a transport failure, aborts the whole loop with that field's error. -/
def seriousLoop (net : Net) (dn : String) :
    List String → List Entry → Except String (List Entry) × List String
  | [], acc => (.ok acc, [])
  | f :: rest, acc =>
    let url := seriousFieldUrl dn f
    match net url with
    | .transportErr _ => (.error f, [url])
    | .http st body =>
      if st = 200 then
        let total_count := body.total.getD 0
        let acc' := if 0 < total_count then acc ++ [⟨outcomeName f, total_count⟩] else acc
        let r := seriousLoop net dn rest acc'
        (r.1, url :: r.2)
      else if st ≠ 404 ∧ raisesForStatus st then
        (.error f, [url])
      else
        let r := seriousLoop net dn rest acc
        (r.1, url :: r.2)

/-- The `total_serious_reports` computation of `get_serious_outcomes`:
only a 200 response contributes a total; a 404, any other status, and a
transport failure are all tolerated and leave the total at 0. -/
def seriousTotal (net : Net) (dn : String) : Nat :=
  match net (seriousTotalUrl dn) with
  | .http st b => if st = 200 then b.total.getD 0 else 0
  | .transportErr _ => 0

/-- `get_serious_outcomes` of `openfda_client.py`.  Failure of the initial
total query (any non-200 outcome, transport included) is tolerated and
leaves the total at 0.  An empty aggregation returns an error that is not
cached; otherwise the entries are sorted by descending count, truncated to
`limit` when `limit` is truthy, and cached. -/
def get_serious_outcomes (net : Net) (cache : Cache) (drug_name : String)
    (limit : Nat) : RunOut :=
  if drug_name = "" then ⟨.err .emptyInput, [], cache⟩
  else
    let dn := processDrugName drug_name
    let key := seriousCacheKey dn limit
    match cacheLookup cache key with
    | some v => ⟨.ok v, [], cache⟩
    | none =>
      let turl := seriousTotalUrl dn
      let total_serious := seriousTotal net dn
      let lp := seriousLoop net dn SERIOUS_OUTCOME_FIELDS []
      match lp.1 with
      | .error f => ⟨.err (.fieldRequestError f), turl :: lp.2, cache⟩
      | .ok agg =>
        if agg = [] then ⟨.err .noData, turl :: lp.2, cache⟩
        else
          let sorted := sortByCountDesc agg
          let limited := if limit ≠ 0 then sorted.take limit else sorted
          let payload : OkPayload := ⟨some limited, none, some total_serious, none⟩
          ⟨.ok payload, turl :: lp.2, cacheInsert cache key payload⟩

/-- `f"time_series_{drug}_{event}"`. -/
def timeSeriesCacheKey (dn en : String) : String :=
  "time_series_" ++ dn ++ "_" ++ en

/-- Query URL of `get_time_series_data`. -/
def timeSeriesUrl (dn en : String) : String :=
  API_BASE_URL ++ "?search=patient.drug.medicinalproduct:\"" ++ dn
    ++ "\"+AND+patient.reaction.reactionmeddrapt:\"" ++ en
    ++ "\"&count=receiptdate"

/-- `get_time_series_data` of `openfda_client.py`: a single count query,
returned and cached unchanged. -/
def get_time_series_data (net : Net) (cache : Cache)
    (drug_name event_name : String) : RunOut :=
  if drug_name = "" ∨ event_name = "" then ⟨.err .emptyInput, [], cache⟩
  else
    let dn := processDrugName drug_name
    let en := pyStrip (pyLower event_name)
    let key := timeSeriesCacheKey dn en
    match cacheLookup cache key with
    | some v => ⟨.ok v, [], cache⟩
    | none =>
      let url := timeSeriesUrl dn en
      match net url with
      | .transportErr m => ⟨.err (.transportError m), [url], cache⟩
      | .http st body =>
        if raisesForStatus st then
          if st = 404 then ⟨.err .notFound, [url], cache⟩
          else ⟨.err (.httpError st), [url], cache⟩
        else
          let payload : OkPayload := ⟨body.results, body.total, none, none⟩
          ⟨.ok payload, [url], cacheInsert cache key payload⟩

/-- `f"report_source_{drug}_{limit}"`. -/
def reportSourceCacheKey (dn : String) (limit : Nat) : String :=
  "report_source_" ++ dn ++ "_" ++ toString limit

/-- Query URL of `get_report_source_data`. -/
def reportSourceUrl (dn : String) : String :=
  API_BASE_URL ++ "?search=patient.drug.medicinalproduct:\"" ++ dn
    ++ "\"&count=primarysource.qualification"

/-- `get_report_source_data` of `openfda_client.py`.  When a `results`
array is present: sort it by descending count, compute the total as the
sum of all counts (before any truncation) and attach it as
`meta.total_reports_for_query`, translate each term through
`QUALIFICATION_MAPPING` with an `"Unknown (<code>)"` fallback, then
truncate to `limit` when `limit` is truthy. -/
def get_report_source_data (net : Net) (cache : Cache) (drug_name : String)
    (limit : Nat) : RunOut :=
  if drug_name = "" then ⟨.err .emptyInput, [], cache⟩
  else
    let dn := processDrugName drug_name
    let key := reportSourceCacheKey dn limit
    match cacheLookup cache key with
    | some v => ⟨.ok v, [], cache⟩
    | none =>
      let url := reportSourceUrl dn
      match net url with
      | .transportErr m => ⟨.err (.transportError m), [url], cache⟩
      | .http st body =>
        if raisesForStatus st then
          if st = 404 then ⟨.err .notFound, [url], cache⟩
          else ⟨.err (.httpError st), [url], cache⟩
        else
          match body.results with
          | none =>
            let payload : OkPayload := ⟨none, body.total, none, none⟩
            ⟨.ok payload, [url], cacheInsert cache key payload⟩
          | some rs =>
            let sorted := sortByCountDesc rs
            let total_with_source := sumCounts sorted
            let translated := sorted.map (fun e => ⟨qualLabel e.term, e.count⟩)
            let limited := if limit ≠ 0 then translated.take limit else translated
            let payload : OkPayload :=
              ⟨some limited, body.total, some total_with_source, none⟩
            ⟨.ok payload, [url], cacheInsert cache key payload⟩

/-- Sex-code selection of `top_adverse_events_tool` in `app.py`. -/
def toolSexCode (patient_sex : String) : Option String :=
  if patient_sex = "Male" then some "1"
  else if patient_sex = "Female" then some "2"
  else none

/-- Age-range selection of `top_adverse_events_tool` in `app.py`:
`age_range = (min_age, max_age) if min_age > 0 or max_age < 120 else None`. -/
def toolAgeRange (min_age max_age : Int) : Option (Int × Int) :=
  if 0 < min_age ∨ max_age < 120 then some (min_age, max_age) else none

/-- The client invocation performed by `top_adverse_events_tool` in
`app.py` (chart and data-frame formatting are out of scope). -/
def top_adverse_events_tool (net : Net) (cache : Cache) (drug_name : String)
    (top_n : Nat) (patient_sex : String) (min_age max_age : Int) : RunOut :=
  get_top_adverse_events net cache drug_name top_n (toolSexCode patient_sex)
    (toolAgeRange min_age max_age)

/-- A per-field response that aborts the whole serious-outcomes loop:
a transport failure, or an HTTP status other than 200 and 404 for which
`raise_for_status` raises. -/
def isHardFieldResp : Resp → Bool
  | .transportErr _ => true
  | .http st _ => st ≠ 200 && st ≠ 404 && raisesForStatus st

/-- The entries the serious-outcomes loop collects when no field aborts
it: one entry per field answered with status 200 and a positive total,
in field order. -/
def seriousCollected (net : Net) (dn : String) (fields : List String) : List Entry :=
  fields.filterMap fun f =>
    match net (seriousFieldUrl dn f) with
    | .http st b =>
      if st = 200 then
        if 0 < b.total.getD 0 then some ⟨outcomeName f, b.total.getD 0⟩ else none
      else none
    | .transportErr _ => none

/-- A network on which every query succeeds with the same grouped body. -/
def netOk : Net := fun _ =>
  .http 200 ⟨some [⟨"headache", 200⟩, ⟨"nausea", 80⟩], some 500⟩

/-- A network on which every query fails at the transport level. -/
def netDown : Net := fun _ => .transportErr "connection refused"

/-- A network on which every query answers 404. -/
def netAll404 : Net := fun _ => .http 404 ⟨none, none⟩

/-- A network on which the total query of the top-events operation for
`aspirin` (unfiltered) fails with a 500 while the grouped query succeeds. -/
def netTotalDown : Net := fun u =>
  if u = topTotalUrl "aspirin" none none then .http 500 ⟨none, none⟩
  else .http 200 ⟨some [⟨"nausea", 5⟩], some 7⟩

/-- A network on which every query succeeds but the body carries no
`meta.results.total` field. -/
def netNoTotal : Net := fun _ => .http 200 ⟨some [⟨"nausea", 5⟩], none⟩

/-- A network for the serious-outcomes operation on `aspirin`: the death
and hospitalization fields have positive totals, the disabling field
answers 404, the congenital-anomaly field answers 200 with total 0, and
everything else (the total query included) answers 404. -/
def netSerious : Net := fun u =>
  if u = seriousFieldUrl "aspirin" "seriousnessdeath" then .http 200 ⟨none, some 3⟩
  else if u = seriousFieldUrl "aspirin" "seriousnesshospitalization" then .http 200 ⟨none, some 9⟩
  else if u = seriousFieldUrl "aspirin" "seriousnesscongenitalanomali" then .http 200 ⟨none, some 0⟩
  else .http 404 ⟨none, none⟩

/-- A network on which the hospitalization field of the serious-outcomes
operation for `aspirin` fails with a 500 while every other query
succeeds. -/
def netSeriousHard : Net := fun u =>
  if u = seriousFieldUrl "aspirin" "seriousnesshospitalization" then .http 500 ⟨none, none⟩
  else .http 200 ⟨none, some 3⟩

/-- A network whose report-source body carries the qualification codes
`"5"`, `"9"` and `"1"` and a remote meta total (999) different from the
sum of the counts. -/
def netQual : Net := fun _ =>
  .http 200 ⟨some [⟨"5", 3⟩, ⟨"9", 10⟩, ⟨"1", 7⟩], some 999⟩

/-- A network on which the pair query of the pair-frequency operation for
`acetaminophen`/`rash` answers 404 while the drug-only query succeeds
with 1000 total reports. -/
def netPair404 : Net := fun u =>
  if u = pairPairUrl "acetaminophen" "rash" then .http 404 ⟨none, none⟩
  else .http 200 ⟨none, some 1000⟩

/-- A payload used to pre-populate the cache in witness scenarios. -/
def cachedPayload : OkPayload := ⟨some [⟨"rash", 42⟩], some 100, some 100, none⟩

theorem mem_insertDesc {a e : Entry} {l : List Entry} :
    a ∈ insertDesc e l ↔ a = e ∨ a ∈ l := by
  induction l with
  | nil => simp [insertDesc]
  | cons x xs ih =>
    simp only [insertDesc]
    split
    · simp [List.mem_cons]
    · simp [List.mem_cons, ih]
      tauto

theorem mem_sortByCountDesc {a : Entry} {l : List Entry} :
    a ∈ sortByCountDesc l ↔ a ∈ l := by
  induction l with
  | nil => simp [sortByCountDesc]
  | cons e es ih => simp [sortByCountDesc, mem_insertDesc, ih]

theorem sumCounts_insertDesc (e : Entry) (l : List Entry) :
    sumCounts (insertDesc e l) = e.count + sumCounts l := by
  induction l with
  | nil => simp [insertDesc, sumCounts]
  | cons x xs ih =>
    simp only [insertDesc]
    split
    · rfl
    · simp [sumCounts, ih]
      omega

theorem sumCounts_sortByCountDesc (l : List Entry) :
    sumCounts (sortByCountDesc l) = sumCounts l := by
  induction l with
  | nil => rfl
  | cons e es ih => simp [sortByCountDesc, sumCounts, sumCounts_insertDesc, ih]

theorem insertDesc_ne_nil (e : Entry) (l : List Entry) : insertDesc e l ≠ [] := by
  cases l with
  | nil => simp [insertDesc]
  | cons x xs =>
    simp only [insertDesc]
    split <;> simp

theorem sortByCountDesc_eq_nil_iff {l : List Entry} :
    sortByCountDesc l = [] ↔ l = [] := by
  cases l with
  | nil => simp [sortByCountDesc]
  | cons e es => simp [sortByCountDesc, insertDesc_ne_nil]

theorem take_ne_nil_of_ne_nil {l : List Entry} {n : Nat} (hn : n ≠ 0)
    (hl : l ≠ []) : l.take n ≠ [] := by
  cases l with
  | nil => exact absurd rfl hl
  | cons x xs =>
    cases n with
    | zero => exact absurd rfl hn
    | succ m => simp

theorem outcomeName_injOn :
    ∀ x ∈ SERIOUS_OUTCOME_FIELDS, ∀ y ∈ SERIOUS_OUTCOME_FIELDS,
      outcomeName x = outcomeName y → x = y := by decide

theorem seriousLoop_ok_iff (net : Net) (dn : String) :
    ∀ (fields : List String) (acc agg : List Entry),
      (seriousLoop net dn fields acc).1 = .ok agg ↔
        ((∀ f ∈ fields, isHardFieldResp (net (seriousFieldUrl dn f)) = false) ∧
          agg = acc ++ seriousCollected net dn fields) := by
  intro fields
  induction fields with
  | nil =>
    intro acc agg
    simp [seriousLoop, seriousCollected]
    tauto
  | cons f rest ih =>
    intro acc agg
    rcases h : net (seriousFieldUrl dn f) with m | ⟨st, b⟩
    · simp [seriousLoop, h, isHardFieldResp]
    · by_cases h200 : st = 200
      · subst h200
        by_cases hpos : 0 < b.total.getD 0
        · simp [seriousLoop, h, hpos, ih, seriousCollected, isHardFieldResp]
        · simp [seriousLoop, h, hpos, ih, seriousCollected, isHardFieldResp]
      · by_cases hhard : st ≠ 404 ∧ raisesForStatus st
        · simp [seriousLoop, h, h200, hhard, isHardFieldResp]
        · have hsoft : isHardFieldResp (.http st b) = false := by
            simp only [isHardFieldResp, Bool.and_eq_false_iff]
            rcases not_and_or.mp hhard with h404 | hr
            · left
              right
              simpa using h404
            · right
              simpa using hr
          simp [seriousLoop, h, h200, hhard, ih, seriousCollected, hsoft]

theorem seriousLoop_error_of_hard (net : Net) (dn : String) :
    ∀ (pre : List String) (f : String) (post : List String) (acc : List Entry),
      (∀ g ∈ pre, isHardFieldResp (net (seriousFieldUrl dn g)) = false) →
      isHardFieldResp (net (seriousFieldUrl dn f)) = true →
      (seriousLoop net dn (pre ++ f :: post) acc).1 = .error f := by
  intro pre
  induction pre with
  | nil =>
    intro f post acc _ hf
    rcases h : net (seriousFieldUrl dn f) with m | ⟨st, b⟩
    · simp [seriousLoop, h]
    · simp only [isHardFieldResp, h, Bool.and_eq_true, decide_eq_true_eq] at hf
      simp [seriousLoop, h, hf.1.1, hf.1.2, hf.2]
  | cons g pre' ih =>
    intro f post acc hsoft hf
    have hg : isHardFieldResp (net (seriousFieldUrl dn g)) = false :=
      hsoft g (by simp)
    have hrest : ∀ x ∈ pre', isHardFieldResp (net (seriousFieldUrl dn x)) = false :=
      fun x hx => hsoft x (by simp [hx])
    rcases h : net (seriousFieldUrl dn g) with m | ⟨st, b⟩
    · rw [h] at hg
      simp [isHardFieldResp] at hg
    · by_cases h200 : st = 200
      · subst h200
        simp [seriousLoop, h, ih f post _ hrest hf]
      · rw [h] at hg
        simp only [isHardFieldResp, Bool.and_eq_false_iff] at hg
        have hnothard : ¬(st ≠ 404 ∧ raisesForStatus st) := by
          rcases hg with (hA | hB) | hC
          · simp at hA
            exact absurd hA h200
          · simp at hB
            simp [hB]
          · simp [hC]
        simp [seriousLoop, h, h200, hnothard, ih f post _ hrest hf]

theorem top_hit (net : Net) (c : Cache) (dn : String) (limit : Nat)
    (ps : Option String) (ar : Option (Int × Int)) (v : OkPayload)
    (h1 : dn ≠ "")
    (h2 : cacheLookup c (topCacheKey (processDrugName dn) limit ps ar) = some v) :
    get_top_adverse_events net c dn limit ps ar = ⟨.ok v, [], c⟩ := by
  simp [get_top_adverse_events, h1, h2]

theorem top_miss_ok_shape (net : Net) (c : Cache) (dn : String) (limit : Nat)
    (ps : Option String) (ar : Option (Int × Int)) (p : OkPayload)
    (h1 : dn ≠ "")
    (h2 : cacheLookup c (topCacheKey (processDrugName dn) limit ps ar) = none)
    (hok : (get_top_adverse_events net c dn limit ps ar).result = .ok p) :
    (get_top_adverse_events net c dn limit ps ar).trace
        = [topCountUrl (processDrugName dn) limit ps ar,
           topTotalUrl (processDrugName dn) ps ar] ∧
    (get_top_adverse_events net c dn limit ps ar).cache
        = cacheInsert c (topCacheKey (processDrugName dn) limit ps ar) p := by
  revert hok
  unfold get_top_adverse_events
  rcases h3 : net (topCountUrl (processDrugName dn) limit ps ar) with m | ⟨st, b⟩
  · simp [h1, h2, h3]
  · by_cases h4 : raisesForStatus st
    · by_cases h5 : st = 404
      · subst h5
        simp [h1, h2, h3, h4]
      · simp [h1, h2, h3, h4, h5]
    · rcases h6 : net (topTotalUrl (processDrugName dn) ps ar) with m2 | ⟨st2, b2⟩
      · simp [h1, h2, h3, h4, h6]
      · by_cases h7 : raisesForStatus st2
        · simp [h1, h2, h3, h4, h6, h7]
        · simp [h1, h2, h3, h4, h6, h7]
          rintro rfl
          rfl

theorem top_miss_trace_ne_nil (net : Net) (c : Cache) (dn : String) (limit : Nat)
    (ps : Option String) (ar : Option (Int × Int))
    (h1 : dn ≠ "")
    (h2 : cacheLookup c (topCacheKey (processDrugName dn) limit ps ar) = none) :
    (get_top_adverse_events net c dn limit ps ar).trace ≠ [] := by
  unfold get_top_adverse_events
  rcases h3 : net (topCountUrl (processDrugName dn) limit ps ar) with m | ⟨st, b⟩
  · simp [h1, h2, h3]
  · by_cases h4 : raisesForStatus st
    · by_cases h5 : st = 404
      · subst h5
        simp [h1, h2, h3, h4]
      · simp [h1, h2, h3, h4, h5]
    · rcases h6 : net (topTotalUrl (processDrugName dn) ps ar) with m2 | ⟨st2, b2⟩
      · simp [h1, h2, h3, h4, h6]
      · by_cases h7 : raisesForStatus st2 <;> simp [h1, h2, h3, h4, h6, h7]

theorem top_cache_discipline (net : Net) (c : Cache) (dn : String) (limit : Nat)
    (ps : Option String) (ar : Option (Int × Int)) :
    ((get_top_adverse_events net c dn limit ps ar).result.isOk = false →
      (get_top_adverse_events net c dn limit ps ar).cache = c) ∧
    (∀ p, (get_top_adverse_events net c dn limit ps ar).result = .ok p →
      cacheLookup (get_top_adverse_events net c dn limit ps ar).cache
        (topCacheKey (processDrugName dn) limit ps ar) = some p) := by
  unfold get_top_adverse_events
  by_cases h1 : dn = ""
  · simp [h1, Res.isOk]
  · rcases h2 : cacheLookup c (topCacheKey (processDrugName dn) limit ps ar) with _ | v
    · rcases h3 : net (topCountUrl (processDrugName dn) limit ps ar) with m | ⟨st, b⟩
      · simp [h1, h2, h3, Res.isOk]
      · by_cases h4 : raisesForStatus st
        · by_cases h5 : st = 404
          · subst h5
            simp [h1, h2, h3, h4, Res.isOk]
          · simp [h1, h2, h3, h4, h5, Res.isOk]
        · rcases h6 : net (topTotalUrl (processDrugName dn) ps ar) with m2 | ⟨st2, b2⟩
          · simp [h1, h2, h3, h4, h6, Res.isOk]
          · by_cases h7 : raisesForStatus st2 <;>
              simp [h1, h2, h3, h4, h6, h7, Res.isOk, cacheInsert, cacheLookup]
    · simp [h1, h2, Res.isOk]

theorem legacy_hit (net : Net) (c : Cache) (dn : String) (limit : Nat) (v : OkPayload)
    (h1 : dn ≠ "")
    (h2 : cacheLookup c (legacyTopCacheKey (pyStrip (pyLower dn)) limit) = some v) :
    legacy_get_top_adverse_events net c dn limit = ⟨.ok v, [], c⟩ := by
  simp [legacy_get_top_adverse_events, h1, h2]

theorem legacy_miss_ok_shape (net : Net) (c : Cache) (dn : String) (limit : Nat)
    (p : OkPayload) (h1 : dn ≠ "")
    (h2 : cacheLookup c (legacyTopCacheKey (pyStrip (pyLower dn)) limit) = none)
    (hok : (legacy_get_top_adverse_events net c dn limit).result = .ok p) :
    (legacy_get_top_adverse_events net c dn limit).trace
        = [legacyTopUrl (pyStrip (pyLower dn)) limit] ∧
    (legacy_get_top_adverse_events net c dn limit).cache
        = cacheInsert c (legacyTopCacheKey (pyStrip (pyLower dn)) limit) p := by
  revert hok
  unfold legacy_get_top_adverse_events
  rcases h3 : net (legacyTopUrl (pyStrip (pyLower dn)) limit) with m | ⟨st, b⟩
  · simp [h1, h2, h3]
  · by_cases h4 : raisesForStatus st
    · by_cases h5 : st = 404
      · subst h5
        simp [h1, h2, h3, h4]
      · simp [h1, h2, h3, h4, h5]
    · simp [h1, h2, h3, h4]
      rintro rfl
      rfl

theorem legacy_miss_trace_ne_nil (net : Net) (c : Cache) (dn : String) (limit : Nat)
    (h1 : dn ≠ "")
    (h2 : cacheLookup c (legacyTopCacheKey (pyStrip (pyLower dn)) limit) = none) :
    (legacy_get_top_adverse_events net c dn limit).trace ≠ [] := by
  unfold legacy_get_top_adverse_events
  rcases h3 : net (legacyTopUrl (pyStrip (pyLower dn)) limit) with m | ⟨st, b⟩
  · simp [h1, h2, h3]
  · by_cases h4 : raisesForStatus st
    · by_cases h5 : st = 404
      · subst h5
        simp [h1, h2, h3, h4]
      · simp [h1, h2, h3, h4, h5]
    · simp [h1, h2, h3, h4]

theorem legacy_cache_discipline (net : Net) (c : Cache) (dn : String) (limit : Nat) :
    ((legacy_get_top_adverse_events net c dn limit).result.isOk = false →
      (legacy_get_top_adverse_events net c dn limit).cache = c) ∧
    (∀ p, (legacy_get_top_adverse_events net c dn limit).result = .ok p →
      cacheLookup (legacy_get_top_adverse_events net c dn limit).cache
        (legacyTopCacheKey (pyStrip (pyLower dn)) limit) = some p) := by
  unfold legacy_get_top_adverse_events
  by_cases h1 : dn = ""
  · simp [h1, Res.isOk]
  · rcases h2 : cacheLookup c (legacyTopCacheKey (pyStrip (pyLower dn)) limit) with _ | v
    · rcases h3 : net (legacyTopUrl (pyStrip (pyLower dn)) limit) with m | ⟨st, b⟩
      · simp [h1, h2, h3, Res.isOk]
      · by_cases h4 : raisesForStatus st
        · by_cases h5 : st = 404
          · subst h5
            simp [h1, h2, h3, h4, Res.isOk]
          · simp [h1, h2, h3, h4, h5, Res.isOk]
        · simp [h1, h2, h3, h4, Res.isOk, cacheInsert, cacheLookup]
    · simp [h1, h2, Res.isOk]

theorem pair_hit (net : Net) (c : Cache) (dnm evn : String) (v : OkPayload)
    (h1 : ¬(dnm = "" ∨ evn = ""))
    (h2 : cacheLookup c (pairCacheKey (processDrugName dnm) (pyStrip (pyLower evn)))
      = some v) :
    get_drug_event_pair_frequency net c dnm evn = ⟨.ok v, [], c⟩ := by
  simp [get_drug_event_pair_frequency, h1, h2]

theorem pair_cache_discipline (net : Net) (c : Cache) (dnm evn : String) :
    ((get_drug_event_pair_frequency net c dnm evn).result.isOk = false →
      (get_drug_event_pair_frequency net c dnm evn).cache = c) ∧
    (∀ p, (get_drug_event_pair_frequency net c dnm evn).result = .ok p →
      cacheLookup (get_drug_event_pair_frequency net c dnm evn).cache
        (pairCacheKey (processDrugName dnm) (pyStrip (pyLower evn))) = some p) := by
  unfold get_drug_event_pair_frequency
  by_cases h1 : dnm = "" ∨ evn = ""
  · simp [h1, Res.isOk]
  · rcases h2 : cacheLookup c (pairCacheKey (processDrugName dnm) (pyStrip (pyLower evn)))
      with _ | v
    · rcases h3 : net (pairDrugUrl (processDrugName dnm)) with m | ⟨st, b⟩
      · simp [h1, h2, h3, Res.isOk]
      · by_cases h4 : raisesForStatus st
        · by_cases h5 : st = 404
          · subst h5
            simp [h1, h2, h3, h4, Res.isOk]
          · simp [h1, h2, h3, h4, h5, Res.isOk]
        · rcases h6 : net (pairPairUrl (processDrugName dnm) (pyStrip (pyLower evn)))
            with m2 | ⟨st2, b2⟩
          · simp [h1, h2, h3, h4, h6, Res.isOk]
          · by_cases h7 : st2 = 200
            · subst h7
              simp [h1, h2, h3, h4, h6, Res.isOk, cacheInsert, cacheLookup]
            · by_cases h8 : st2 ≠ 404 ∧ raisesForStatus st2 <;>
                simp [h1, h2, h3, h4, h6, h7, h8, Res.isOk, cacheInsert, cacheLookup]
    · simp [h1, h2, Res.isOk]

theorem series_hit (net : Net) (c : Cache) (dnm evn : String) (v : OkPayload)
    (h1 : ¬(dnm = "" ∨ evn = ""))
    (h2 : cacheLookup c (timeSeriesCacheKey (processDrugName dnm) (pyStrip (pyLower evn)))
      = some v) :
    get_time_series_data net c dnm evn = ⟨.ok v, [], c⟩ := by
  simp [get_time_series_data, h1, h2]

theorem series_cache_discipline (net : Net) (c : Cache) (dnm evn : String) :
    ((get_time_series_data net c dnm evn).result.isOk = false →
      (get_time_series_data net c dnm evn).cache = c) ∧
    (∀ p, (get_time_series_data net c dnm evn).result = .ok p →
      cacheLookup (get_time_series_data net c dnm evn).cache
        (timeSeriesCacheKey (processDrugName dnm) (pyStrip (pyLower evn))) = some p) := by
  unfold get_time_series_data
  by_cases h1 : dnm = "" ∨ evn = ""
  · simp [h1, Res.isOk]
  · rcases h2 : cacheLookup c (timeSeriesCacheKey (processDrugName dnm)
      (pyStrip (pyLower evn))) with _ | v
    · rcases h3 : net (timeSeriesUrl (processDrugName dnm) (pyStrip (pyLower evn)))
        with m | ⟨st, b⟩
      · simp [h1, h2, h3, Res.isOk]
      · by_cases h4 : raisesForStatus st
        · by_cases h5 : st = 404
          · subst h5
            simp [h1, h2, h3, h4, Res.isOk]
          · simp [h1, h2, h3, h4, h5, Res.isOk]
        · simp [h1, h2, h3, h4, Res.isOk, cacheInsert, cacheLookup]
    · simp [h1, h2, Res.isOk]

theorem source_hit (net : Net) (c : Cache) (dnm : String) (limit : Nat) (v : OkPayload)
    (h1 : dnm ≠ "")
    (h2 : cacheLookup c (reportSourceCacheKey (processDrugName dnm) limit) = some v) :
    get_report_source_data net c dnm limit = ⟨.ok v, [], c⟩ := by
  simp [get_report_source_data, h1, h2]

theorem source_cache_discipline (net : Net) (c : Cache) (dnm : String) (limit : Nat) :
    ((get_report_source_data net c dnm limit).result.isOk = false →
      (get_report_source_data net c dnm limit).cache = c) ∧
    (∀ p, (get_report_source_data net c dnm limit).result = .ok p →
      cacheLookup (get_report_source_data net c dnm limit).cache
        (reportSourceCacheKey (processDrugName dnm) limit) = some p) := by
  unfold get_report_source_data
  by_cases h1 : dnm = ""
  · simp [h1, Res.isOk]
  · rcases h2 : cacheLookup c (reportSourceCacheKey (processDrugName dnm) limit) with _ | v
    · rcases h3 : net (reportSourceUrl (processDrugName dnm)) with m | ⟨st, b⟩
      · simp [h1, h2, h3, Res.isOk]
      · by_cases h4 : raisesForStatus st
        · by_cases h5 : st = 404
          · subst h5
            simp [h1, h2, h3, h4, Res.isOk]
          · simp [h1, h2, h3, h4, h5, Res.isOk]
        · rcases h6 : b.results with _ | rs <;>
            simp [h1, h2, h3, h4, h6, Res.isOk, cacheInsert, cacheLookup]
    · simp [h1, h2, Res.isOk]

theorem serious_hit (net : Net) (c : Cache) (dnm : String) (limit : Nat) (v : OkPayload)
    (h1 : dnm ≠ "")
    (h2 : cacheLookup c (seriousCacheKey (processDrugName dnm) limit) = some v) :
    get_serious_outcomes net c dnm limit = ⟨.ok v, [], c⟩ := by
  simp [get_serious_outcomes, h1, h2]

theorem serious_run_error (net : Net) (c : Cache) (dnm : String) (limit : Nat)
    (f : String) (h1 : dnm ≠ "")
    (h2 : cacheLookup c (seriousCacheKey (processDrugName dnm) limit) = none)
    (hL : (seriousLoop net (processDrugName dnm) SERIOUS_OUTCOME_FIELDS []).1 = .error f) :
    get_serious_outcomes net c dnm limit
      = ⟨.err (.fieldRequestError f),
         seriousTotalUrl (processDrugName dnm)
           :: (seriousLoop net (processDrugName dnm) SERIOUS_OUTCOME_FIELDS []).2, c⟩ := by
  simp [get_serious_outcomes, h1, h2, hL]

theorem serious_run_noData (net : Net) (c : Cache) (dnm : String) (limit : Nat)
    (h1 : dnm ≠ "")
    (h2 : cacheLookup c (seriousCacheKey (processDrugName dnm) limit) = none)
    (hL : (seriousLoop net (processDrugName dnm) SERIOUS_OUTCOME_FIELDS []).1 = .ok []) :
    get_serious_outcomes net c dnm limit
      = ⟨.err .noData,
         seriousTotalUrl (processDrugName dnm)
           :: (seriousLoop net (processDrugName dnm) SERIOUS_OUTCOME_FIELDS []).2, c⟩ := by
  simp [get_serious_outcomes, h1, h2, hL]

theorem serious_run_ok (net : Net) (c : Cache) (dnm : String) (limit : Nat)
    (agg : List Entry) (h1 : dnm ≠ "")
    (h2 : cacheLookup c (seriousCacheKey (processDrugName dnm) limit) = none)
    (hL : (seriousLoop net (processDrugName dnm) SERIOUS_OUTCOME_FIELDS []).1 = .ok agg)
    (hne : agg ≠ []) :
    get_serious_outcomes net c dnm limit
      = ⟨.ok ⟨some (if limit ≠ 0 then (sortByCountDesc agg).take limit
                    else sortByCountDesc agg),
              none, some (seriousTotal net (processDrugName dnm)), none⟩,
         seriousTotalUrl (processDrugName dnm)
           :: (seriousLoop net (processDrugName dnm) SERIOUS_OUTCOME_FIELDS []).2,
         cacheInsert c (seriousCacheKey (processDrugName dnm) limit)
           ⟨some (if limit ≠ 0 then (sortByCountDesc agg).take limit
                  else sortByCountDesc agg),
            none, some (seriousTotal net (processDrugName dnm)), none⟩⟩ := by
  simp [get_serious_outcomes, h1, h2, hL, hne]

theorem serious_result_cases (net : Net) (c : Cache) (dnm : String) (limit : Nat)
    (p : OkPayload) (h1 : dnm ≠ "")
    (h2 : cacheLookup c (seriousCacheKey (processDrugName dnm) limit) = none)
    (hok : (get_serious_outcomes net c dnm limit).result = .ok p) :
    ∃ agg, (seriousLoop net (processDrugName dnm) SERIOUS_OUTCOME_FIELDS []).1 = .ok agg
      ∧ agg ≠ []
      ∧ p = ⟨some (if limit ≠ 0 then (sortByCountDesc agg).take limit
                   else sortByCountDesc agg),
             none, some (seriousTotal net (processDrugName dnm)), none⟩ := by
  rcases hL : (seriousLoop net (processDrugName dnm) SERIOUS_OUTCOME_FIELDS []).1
    with f | agg
  · rw [serious_run_error net c dnm limit f h1 h2 hL] at hok
    simp at hok
  · by_cases hne : agg = []
    · subst hne
      rw [serious_run_noData net c dnm limit h1 h2 hL] at hok
      simp at hok
    · rw [serious_run_ok net c dnm limit agg h1 h2 hL hne] at hok
      simp at hok
      refine ⟨agg, rfl, hne, ?_⟩
      simp only [ne_eq, ite_not]
      exact hok.symm

theorem serious_cache_discipline (net : Net) (c : Cache) (dnm : String) (limit : Nat) :
    ((get_serious_outcomes net c dnm limit).result.isOk = false →
      (get_serious_outcomes net c dnm limit).cache = c) ∧
    (∀ p, (get_serious_outcomes net c dnm limit).result = .ok p →
      cacheLookup (get_serious_outcomes net c dnm limit).cache
        (seriousCacheKey (processDrugName dnm) limit) = some p) := by
  unfold get_serious_outcomes
  by_cases h1 : dnm = ""
  · simp [h1, Res.isOk]
  · rcases h2 : cacheLookup c (seriousCacheKey (processDrugName dnm) limit) with _ | v
    · rcases hL : (seriousLoop net (processDrugName dnm) SERIOUS_OUTCOME_FIELDS []).1
        with f | agg
      · simp [h1, h2, hL, Res.isOk]
      · by_cases hne : agg = []
        · subst hne
          simp [h1, h2, hL, Res.isOk]
        · simp [h1, h2, hL, hne, Res.isOk, cacheInsert, cacheLookup]
    · simp [h1, h2, Res.isOk]

theorem seriousCollected_inv {net : Net} {dn : String} {fields : List String} {e : Entry}
    (he : e ∈ seriousCollected net dn fields) :
    ∃ g ∈ fields, ∃ b, net (seriousFieldUrl dn g) = .http 200 b ∧
      0 < b.total.getD 0 ∧ e = ⟨outcomeName g, b.total.getD 0⟩ := by
  rcases List.mem_filterMap.mp he with ⟨g, hg, hfn⟩
  rcases hng : net (seriousFieldUrl dn g) with m | ⟨st, b⟩
  · rw [hng] at hfn
    simp at hfn
  · rw [hng] at hfn
    by_cases h200 : st = 200
    · subst h200
      by_cases hpos : 0 < b.total.getD 0
      · simp [hpos] at hfn
        exact ⟨g, hg, b, hng, hpos, hfn.symm⟩
      · simp [hpos] at hfn
    · simp [h200] at hfn

theorem seriousCollected_pos {net : Net} {dn : String} {fields : List String} :
    ∀ e ∈ seriousCollected net dn fields, 0 < e.count := by
  intro e he
  obtain ⟨g, _, b, _, hpos, he'⟩ := seriousCollected_inv he
  rw [he']
  exact hpos

theorem string_append_cancel_left {a b c : String} (h : a ++ b = a ++ c) : b = c := by
  apply String.ext
  have h2 := congrArg String.data h
  simp only [String.data_append] at h2
  exact List.append_cancel_left h2

theorem topCacheKey_10_ne_20 (dn : String) :
    topCacheKey dn 10 none none ≠ topCacheKey dn 20 none none := by
  intro h
  unfold topCacheKey at h
  have h2 := congrArg String.data h
  simp only [String.data_append, List.append_assoc] at h2
  have h3 := List.append_cancel_left h2
  have h4 := List.append_cancel_left h3
  exact absurd h4 (by decide)

theorem legacyTopCacheKey_10_ne_20 (dn : String) :
    legacyTopCacheKey dn 10 ≠ legacyTopCacheKey dn 20 := by
  intro h
  unfold legacyTopCacheKey at h
  have h2 := congrArg String.data h
  simp only [String.data_append, List.append_assoc] at h2
  have h3 := List.append_cancel_left h2
  have h4 := List.append_cancel_left h3
  exact absurd h4 (by decide)

/-- C1 (amended): for the top-adverse-events operation on a non-empty drug
name and a cache miss, when the grouped-count query succeeds, a failing
total-count query — an HTTP error status or a transport error — makes the
whole operation return an error (contrary to the original claim);
`meta.total_reports_for_query` is 0 only when the total-count query
succeeds but its body carries no total field. -/
theorem claim1_total_query_failure (net : Net) (c : Cache) (dnm : String)
    (limit : Nat) (ps : Option String) (ar : Option (Int × Int))
    (h1 : dnm ≠ "")
    (h2 : cacheLookup c (topCacheKey (processDrugName dnm) limit ps ar) = none) :
    (∀ st b st2 b2,
      net (topCountUrl (processDrugName dnm) limit ps ar) = .http st b →
      raisesForStatus st = false →
      net (topTotalUrl (processDrugName dnm) ps ar) = .http st2 b2 →
      raisesForStatus st2 = true →
      (get_top_adverse_events net c dnm limit ps ar).result = .err (.httpError st2)) ∧
    (∀ st b m,
      net (topCountUrl (processDrugName dnm) limit ps ar) = .http st b →
      raisesForStatus st = false →
      net (topTotalUrl (processDrugName dnm) ps ar) = .transportErr m →
      (get_top_adverse_events net c dnm limit ps ar).result = .err (.transportError m)) ∧
    (∀ st b st2 b2,
      net (topCountUrl (processDrugName dnm) limit ps ar) = .http st b →
      raisesForStatus st = false →
      net (topTotalUrl (processDrugName dnm) ps ar) = .http st2 b2 →
      raisesForStatus st2 = false →
      b2.total = none →
      (get_top_adverse_events net c dnm limit ps ar).result
        = .ok ⟨b.results, b.total, some 0, none⟩) := by
  refine ⟨?_, ?_, ?_⟩
  · intro st b st2 b2 hn1 hr1 hn2 hr2
    simp [get_top_adverse_events, h1, h2, hn1, hr1, hn2, hr2]
  · intro st b m hn1 hr1 hn2
    simp [get_top_adverse_events, h1, h2, hn1, hr1, hn2]
  · intro st b st2 b2 hn1 hr1 hn2 hr2 htot
    simp [get_top_adverse_events, h1, h2, hn1, hr1, hn2, hr2, htot]

/-- C1 counterexample: on the concrete network where the grouped query for
`aspirin` succeeds and the separate total query answers 500, the
top-adverse-events operation does not return the grouped result as a
success with zero total — it returns an HTTP-error dict. -/
theorem claim1_counterexample :
    (get_top_adverse_events netTotalDown [] "aspirin" 10 none none).result.isOk
        = false ∧
    (get_top_adverse_events netTotalDown [] "aspirin" 10 none none).result
        = .err (.httpError 500) := by
  constructor <;> decide

theorem claim1_witness :
    (get_top_adverse_events netTotalDown [] "aspirin" 10 none none).result
        = .err (.httpError 500) ∧
    (get_top_adverse_events netNoTotal [] "aspirin" 10 none none).result
        = .ok ⟨some [⟨"nausea", 5⟩], none, some 0, none⟩ := by
  constructor
  · exact (claim1_total_query_failure netTotalDown [] "aspirin" 10 none none
      (by decide) (by decide)).1 200 ⟨some [⟨"nausea", 5⟩], some 7⟩ 500 ⟨none, none⟩
      (by decide) (by decide) (by decide) (by decide)
  · exact (claim1_total_query_failure netNoTotal [] "aspirin" 10 none none
      (by decide) (by decide)).2.2 200 ⟨some [⟨"nausea", 5⟩], none⟩
      200 ⟨some [⟨"nausea", 5⟩], none⟩
      (by decide) (by decide) (by decide) (by decide) (by decide)

/-- C3: for the pair-frequency operation with non-empty names on a cache
miss, a 404 on the primary drug-only query yields the not-found error,
while a 404 on the secondary pair query after a 200 on the drug-only query
yields a success with pair total 0 and the drug total taken from the
drug-only response. -/
theorem claim3_pair_404_semantics (net : Net) (c : Cache) (dnm evn : String)
    (h1 : dnm ≠ "") (h2 : evn ≠ "")
    (hm : cacheLookup c
      (pairCacheKey (processDrugName dnm) (pyStrip (pyLower evn))) = none) :
    (∀ b, net (pairDrugUrl (processDrugName dnm)) = .http 404 b →
      (get_drug_event_pair_frequency net c dnm evn).result = .err .notFound) ∧
    (∀ b b2, net (pairDrugUrl (processDrugName dnm)) = .http 200 b →
      net (pairPairUrl (processDrugName dnm) (pyStrip (pyLower evn))) = .http 404 b2 →
      (get_drug_event_pair_frequency net c dnm evn).result
        = .ok ⟨none, some 0, none, some (b.total.getD 0)⟩) := by
  have hne : ¬(dnm = "" ∨ evn = "") := by simp [h1, h2]
  have hr404 : raisesForStatus 404 = true := by decide
  have hr200 : raisesForStatus 200 = false := by decide
  constructor
  · intro b hb
    simp [get_drug_event_pair_frequency, hne, hm, hb, hr404]
  · intro b b2 hb hb2
    simp [get_drug_event_pair_frequency, hne, hm, hb, hb2, hr200]

theorem claim3_witness :
    (get_drug_event_pair_frequency netAll404 [] "aspirin" "rash").result
        = .err .notFound ∧
    (get_drug_event_pair_frequency netPair404 [] "Tylenol" "Rash").result
        = .ok ⟨none, some 0, none, some 1000⟩ := by
  constructor
  · exact (claim3_pair_404_semantics netAll404 [] "aspirin" "rash"
      (by decide) (by decide) (by decide)).1 ⟨none, none⟩ (by decide)
  · exact (claim3_pair_404_semantics netPair404 [] "Tylenol" "Rash"
      (by decide) (by decide) (by decide)).2 ⟨none, some 1000⟩ ⟨none, none⟩
      (by decide) (by decide)

/-- C5 (amended): the outcome code table does map `"5"` to `"Fatal"`, but
no result path applies it; the one code translation in results returned to
the caller is the qualification table in the report-source operation,
where a code absent from the table renders as `"Unknown (<code>)"` —
unmapped `"9"` renders as `"Unknown (9)"` — rather than failing. -/
theorem claim5_code_translation :
    lookupStr OUTCOME_MAPPING "5" = some "Fatal" ∧
    (∀ t, lookupStr QUALIFICATION_MAPPING t = none →
      qualLabel t = "Unknown (" ++ t ++ ")") ∧
    (get_report_source_data netQual [] "aspirin" 5).result
      = .ok ⟨some [⟨"Unknown (9)", 10⟩, ⟨"Physician", 7⟩,
          ⟨"Consumer or Non-Health Professional", 3⟩], some 999, some 20, none⟩ := by
  refine ⟨by decide, ?_, by decide⟩
  intro t ht
  simp [qualLabel, ht]

theorem claim5_witness :
    lookupStr QUALIFICATION_MAPPING "9" = none ∧ qualLabel "9" = "Unknown (9)" :=
  ⟨by decide, (claim5_code_translation.2.1 "9" (by decide)).trans (by decide)⟩

/-- C5 counterexample: in results returned to the caller, the code `"5"`
renders through the qualification table as
`"Consumer or Non-Health Professional"`, not `"Fatal"`; no operation
renders `"Fatal"` from code `"5"`. -/
theorem claim5_counterexample :
    qualLabel "5" = "Consumer or Non-Health Professional" ∧
    qualLabel "5" ≠ "Fatal" ∧
    (get_report_source_data netQual [] "aspirin" 5).result
      = .ok ⟨some [⟨"Unknown (9)", 10⟩, ⟨"Physician", 7⟩,
          ⟨"Consumer or Non-Health Professional", 3⟩], some 999, some 20, none⟩ ∧
    ("Consumer or Non-Health Professional" : String) ≠ "Fatal" := by
  refine ⟨by decide, by decide, by decide, by decide⟩

/-- C6: the brand name `tylenol` and the generic name `acetaminophen`
normalize to the same drug name, and therefore produce the same cache key,
the same search query and the same query URLs for the top-adverse-events
operation, for every limit, sex filter and age filter. -/
theorem claim6_synonym_same_key :
    processDrugName "tylenol" = processDrugName "acetaminophen" ∧
    ∀ (limit : Nat) (ps : Option String) (ar : Option (Int × Int)),
      topCacheKey (processDrugName "tylenol") limit ps ar
        = topCacheKey (processDrugName "acetaminophen") limit ps ar ∧
      topSearchQuery (processDrugName "tylenol") ps ar
        = topSearchQuery (processDrugName "acetaminophen") ps ar ∧
      topCountUrl (processDrugName "tylenol") limit ps ar
        = topCountUrl (processDrugName "acetaminophen") limit ps ar ∧
      topTotalUrl (processDrugName "tylenol") ps ar
        = topTotalUrl (processDrugName "acetaminophen") ps ar := by
  have h : processDrugName "tylenol" = processDrugName "acetaminophen" := by decide
  refine ⟨h, fun limit ps ar => ?_⟩
  rw [h]
  exact ⟨rfl, rfl, rfl, rfl⟩

/-- C8: the age-range clause is part of the top-adverse-events query
exactly when `min > 0` or `max < 120`; the full default range `(0, 120)`
is passed to the client as no filter at all, so the query is the same as
with no age filter. -/
theorem claim8_age_filter (dn : String) (ps : Option String) (mi ma : Int) :
    (¬(0 < mi ∨ ma < 120) → toolAgeRange mi ma = none) ∧
    ((0 < mi ∨ ma < 120) →
      toolAgeRange mi ma = some (mi, ma) ∧
      topSearchTerms dn ps (toolAgeRange mi ma)
        = topSearchTerms dn ps none
          ++ ["patient.patientonsetage:[" ++ toString mi ++ " TO "
               ++ toString ma ++ "]"]) ∧
    (∀ (net : Net) (c : Cache) (n : Nat) (sex : String),
      top_adverse_events_tool net c dn n sex 0 120
        = get_top_adverse_events net c dn n (toolSexCode sex) none) := by
  refine ⟨?_, ?_, ?_⟩
  · intro h
    simp [toolAgeRange, h]
  · intro h
    refine ⟨by simp [toolAgeRange, h], ?_⟩
    simp [toolAgeRange, h, topSearchTerms, List.append_assoc]
  · intro net c n sex
    have : toolAgeRange 0 120 = none := by decide
    simp [top_adverse_events_tool, this]

theorem claim8_witness :
    toolAgeRange 0 120 = none ∧
    (toolAgeRange 30 120 = some (30, 120) ∧
      topSearchTerms "aspirin" none (toolAgeRange 30 120)
        = topSearchTerms "aspirin" none none
          ++ ["patient.patientonsetage:[" ++ toString (30 : Int) ++ " TO "
               ++ toString (120 : Int) ++ "]"]) ∧
    top_adverse_events_tool netOk [] "aspirin" 10 "All" 0 120
      = get_top_adverse_events netOk [] "aspirin" 10 (toolSexCode "All") none := by
  refine ⟨?_, ?_, ?_⟩
  · exact (claim8_age_filter "aspirin" none 0 120).1 (by decide)
  · exact (claim8_age_filter "aspirin" none 30 120).2.1 (by decide)
  · exact (claim8_age_filter "aspirin" none 0 120).2.2 netOk [] 10 "All"

/-- C2: for the serious-outcomes operation on a non-empty drug name and a
cache miss: a per-field sub-query answered 404 leaves that field out of a
successful result; the first per-field sub-query failing hard (transport
error, or a 4xx/5xx other than 404) makes the whole operation return that
field's error with no partial aggregation and no cache write; and the
total-count query is never fatal — its total is 0 whenever it does not
answer 200. -/
theorem claim2_serious_field_errors (net : Net) (c : Cache) (dnm : String)
    (limit : Nat) (h1 : dnm ≠ "")
    (hm : cacheLookup c (seriousCacheKey (processDrugName dnm) limit) = none) :
    (∀ f b p es, f ∈ SERIOUS_OUTCOME_FIELDS →
      net (seriousFieldUrl (processDrugName dnm) f) = .http 404 b →
      (get_serious_outcomes net c dnm limit).result = .ok p →
      p.results = some es →
      outcomeName f ∉ es.map Entry.term) ∧
    (∀ pre f post,
      SERIOUS_OUTCOME_FIELDS = pre ++ f :: post →
      (∀ g ∈ pre, isHardFieldResp (net (seriousFieldUrl (processDrugName dnm) g))
        = false) →
      isHardFieldResp (net (seriousFieldUrl (processDrugName dnm) f)) = true →
      (get_serious_outcomes net c dnm limit).result = .err (.fieldRequestError f) ∧
      (get_serious_outcomes net c dnm limit).cache = c) ∧
    (∀ p, (get_serious_outcomes net c dnm limit).result = .ok p →
      p.totalForQuery = some (seriousTotal net (processDrugName dnm))) ∧
    (∀ m, net (seriousTotalUrl (processDrugName dnm)) = .transportErr m →
      seriousTotal net (processDrugName dnm) = 0) ∧
    (∀ st b, net (seriousTotalUrl (processDrugName dnm)) = .http st b → st ≠ 200 →
      seriousTotal net (processDrugName dnm) = 0) := by
  refine ⟨?_, ?_, ?_, ?_, ?_⟩
  · intro f b p es hf hnet hok hres hmem
    obtain ⟨agg, hL, hne, hp⟩ := serious_result_cases net c dnm limit p h1 hm hok
    rw [hp] at hres
    simp only [Option.some.injEq] at hres
    obtain ⟨e, he, hterm⟩ := List.mem_map.mp hmem
    rw [← hres] at he
    have hsort : e ∈ sortByCountDesc agg := by
      by_cases hl : limit = 0
      · simpa [hl] using he
      · simp only [hl, ne_eq, not_false_iff, if_true] at he
        exact List.take_subset _ _ he
    have hagg : e ∈ agg := mem_sortByCountDesc.mp hsort
    obtain ⟨hsoft, haggeq⟩ :=
      (seriousLoop_ok_iff net (processDrugName dnm) SERIOUS_OUTCOME_FIELDS [] agg).mp hL
    rw [haggeq] at hagg
    simp only [List.nil_append] at hagg
    obtain ⟨g, hg, b', hng, hpos, hform⟩ := seriousCollected_inv hagg
    have hgname : outcomeName g = outcomeName f := by
      rw [hform] at hterm
      exact hterm
    have hgf : g = f := outcomeName_injOn g hg f hf hgname
    rw [hgf, hnet] at hng
    simp at hng
  · intro pre f post hdecomp hsoft hhard
    have hL := seriousLoop_error_of_hard net (processDrugName dnm) pre f post []
      hsoft hhard
    rw [← hdecomp] at hL
    rw [serious_run_error net c dnm limit f h1 hm hL]
    exact ⟨rfl, rfl⟩
  · intro p hok
    obtain ⟨agg, hL, hne, hp⟩ := serious_result_cases net c dnm limit p h1 hm hok
    rw [hp]
  · intro m hmsg
    simp [seriousTotal, hmsg]
  · intro st b hst hne200
    simp [seriousTotal, hst, hne200]

theorem claim2_witness :
    outcomeName "seriousnessdisabling" ∉
      ([⟨"Hospitalization", 9⟩, ⟨"Death", 3⟩] : List Entry).map Entry.term ∧
    (get_serious_outcomes netSeriousHard [] "aspirin" 6).result
      = .err (.fieldRequestError "seriousnesshospitalization") ∧
    (get_serious_outcomes netSeriousHard [] "aspirin" 6).cache = [] := by
  refine ⟨?_, ?_⟩
  · exact (claim2_serious_field_errors netSerious [] "aspirin" 6
      (by decide) (by decide)).1 "seriousnessdisabling" ⟨none, none⟩
      ⟨some [⟨"Hospitalization", 9⟩, ⟨"Death", 3⟩], none, some 0, none⟩
      [⟨"Hospitalization", 9⟩, ⟨"Death", 3⟩]
      (by decide) (by decide) (by decide) (by decide)
  · exact (claim2_serious_field_errors netSeriousHard [] "aspirin" 6
      (by decide) (by decide)).2.1
      ["seriousnessdeath", "seriousnesslifethreatening"]
      "seriousnesshospitalization"
      ["seriousnessdisabling", "seriousnesscongenitalanomali", "seriousnessother"]
      (by decide) (by decide) (by decide)

/-- C9: for the serious-outcomes operation on a non-empty drug name and a
cache miss, every entry of a successful result has a strictly positive
count and the entry list is non-empty; when every per-field sub-query is
soft and none yields a positive count, the operation returns the no-data
error and writes nothing to the cache. -/
theorem claim9_serious_positive_counts (net : Net) (c : Cache) (dnm : String)
    (limit : Nat) (h1 : dnm ≠ "")
    (hm : cacheLookup c (seriousCacheKey (processDrugName dnm) limit) = none) :
    (∀ p es, (get_serious_outcomes net c dnm limit).result = .ok p →
      p.results = some es → es ≠ [] ∧ ∀ e ∈ es, 0 < e.count) ∧
    ((∀ g ∈ SERIOUS_OUTCOME_FIELDS,
        isHardFieldResp (net (seriousFieldUrl (processDrugName dnm) g)) = false) →
      seriousCollected net (processDrugName dnm) SERIOUS_OUTCOME_FIELDS = [] →
      get_serious_outcomes net c dnm limit
        = ⟨.err .noData,
           seriousTotalUrl (processDrugName dnm)
             :: (seriousLoop net (processDrugName dnm) SERIOUS_OUTCOME_FIELDS []).2,
           c⟩) := by
  constructor
  · intro p es hok hres
    obtain ⟨agg, hL, hne, hp⟩ := serious_result_cases net c dnm limit p h1 hm hok
    rw [hp] at hres
    simp only [Option.some.injEq] at hres
    obtain ⟨hsoft, haggeq⟩ :=
      (seriousLoop_ok_iff net (processDrugName dnm) SERIOUS_OUTCOME_FIELDS [] agg).mp hL
    simp only [List.nil_append] at haggeq
    have hsortne : sortByCountDesc agg ≠ [] := by
      rw [Ne, sortByCountDesc_eq_nil_iff]
      exact hne
    constructor
    · rw [← hres]
      by_cases hl : limit = 0
      · simpa [hl] using hsortne
      · simp only [hl, ne_eq, not_false_iff, if_true]
        exact take_ne_nil_of_ne_nil hl hsortne
    · intro e he
      rw [← hres] at he
      have hsort : e ∈ sortByCountDesc agg := by
        by_cases hl : limit = 0
        · simpa [hl] using he
        · simp only [hl, ne_eq, not_false_iff, if_true] at he
          exact List.take_subset _ _ he
      have hagg : e ∈ agg := mem_sortByCountDesc.mp hsort
      rw [haggeq] at hagg
      exact seriousCollected_pos e hagg
  · intro hsoft hcoll
    have hL : (seriousLoop net (processDrugName dnm) SERIOUS_OUTCOME_FIELDS []).1
        = .ok [] :=
      (seriousLoop_ok_iff net (processDrugName dnm) SERIOUS_OUTCOME_FIELDS [] []).mpr
        ⟨hsoft, by simp [hcoll]⟩
    exact serious_run_noData net c dnm limit h1 hm hL

theorem claim9_witness :
    (([⟨"Hospitalization", 9⟩, ⟨"Death", 3⟩] : List Entry) ≠ [] ∧
      ∀ e ∈ ([⟨"Hospitalization", 9⟩, ⟨"Death", 3⟩] : List Entry), 0 < e.count) ∧
    get_serious_outcomes netAll404 [] "aspirin" 6
      = ⟨.err .noData,
         seriousTotalUrl (processDrugName "aspirin")
           :: (seriousLoop netAll404 (processDrugName "aspirin")
                SERIOUS_OUTCOME_FIELDS []).2,
         []⟩ := by
  constructor
  · exact (claim9_serious_positive_counts netSerious [] "aspirin" 6
      (by decide) (by decide)).1
      ⟨some [⟨"Hospitalization", 9⟩, ⟨"Death", 3⟩], none, some 0, none⟩
      [⟨"Hospitalization", 9⟩, ⟨"Death", 3⟩] (by decide) (by decide)
  · exact (claim9_serious_positive_counts netAll404 [] "aspirin" 6
      (by decide) (by decide)).2 (by decide) (by decide)

/-- C10: for the report-source operation on a non-empty drug name, a
truthy limit and a cache miss, a successful result carries
`meta.total_reports_for_query` equal to the sum of the counts of all
entries the remote returned — not the remote meta total — and its entries
are the descending-by-count sort of all entries, truncated to the limit,
with each term translated through the qualification table; the total and
the order come from the full list, before truncation and before
translation. -/
theorem claim10_source_total_before_limit (net : Net) (c : Cache) (dnm : String)
    (limit : Nat) (h1 : dnm ≠ "") (hl : limit ≠ 0)
    (hm : cacheLookup c (reportSourceCacheKey (processDrugName dnm) limit) = none) :
    ∀ st rs mt, net (reportSourceUrl (processDrugName dnm)) = .http st ⟨some rs, mt⟩ →
      raisesForStatus st = false →
      (get_report_source_data net c dnm limit).result
        = .ok ⟨some (((sortByCountDesc rs).take limit).map
                fun e => ⟨qualLabel e.term, e.count⟩),
               mt, some (sumCounts rs), none⟩ := by
  intro st rs mt hnet hr
  simp [get_report_source_data, h1, hm, hnet, hr, hl,
    sumCounts_sortByCountDesc, List.map_take]

theorem claim10_witness :
    (get_report_source_data netQual [] "aspirin" 2).result
      = .ok ⟨some [⟨"Unknown (9)", 10⟩, ⟨"Physician", 7⟩], some 999, some 20, none⟩ ∧
    (999 : Nat) ≠ 20 := by
  constructor
  · exact (claim10_source_total_before_limit netQual [] "aspirin" 2
      (by decide) (by decide) (by decide) 200 [⟨"5", 3⟩, ⟨"9", 10⟩, ⟨"1", 7⟩]
      (some 999) (by decide) (by decide)).trans (by decide)
  · decide

/-- C7: for each of the five operations, a cache hit returns the stored
payload with no network call and an unchanged cache; an invocation that
returns an error leaves the cache unchanged; and a successful result is
stored in the final cache under the operation's key. -/
theorem claim7_cache_discipline (net : Net) (c : Cache) (dnm evn : String)
    (limit : Nat) (ps : Option String) (ar : Option (Int × Int)) :
    ((∀ v, dnm ≠ "" →
        cacheLookup c (topCacheKey (processDrugName dnm) limit ps ar) = some v →
        get_top_adverse_events net c dnm limit ps ar = ⟨.ok v, [], c⟩) ∧
      ((get_top_adverse_events net c dnm limit ps ar).result.isOk = false →
        (get_top_adverse_events net c dnm limit ps ar).cache = c) ∧
      (∀ p, (get_top_adverse_events net c dnm limit ps ar).result = .ok p →
        cacheLookup (get_top_adverse_events net c dnm limit ps ar).cache
          (topCacheKey (processDrugName dnm) limit ps ar) = some p)) ∧
    ((∀ v, dnm ≠ "" → evn ≠ "" →
        cacheLookup c (pairCacheKey (processDrugName dnm) (pyStrip (pyLower evn)))
          = some v →
        get_drug_event_pair_frequency net c dnm evn = ⟨.ok v, [], c⟩) ∧
      ((get_drug_event_pair_frequency net c dnm evn).result.isOk = false →
        (get_drug_event_pair_frequency net c dnm evn).cache = c) ∧
      (∀ p, (get_drug_event_pair_frequency net c dnm evn).result = .ok p →
        cacheLookup (get_drug_event_pair_frequency net c dnm evn).cache
          (pairCacheKey (processDrugName dnm) (pyStrip (pyLower evn))) = some p)) ∧
    ((∀ v, dnm ≠ "" →
        cacheLookup c (seriousCacheKey (processDrugName dnm) limit) = some v →
        get_serious_outcomes net c dnm limit = ⟨.ok v, [], c⟩) ∧
      ((get_serious_outcomes net c dnm limit).result.isOk = false →
        (get_serious_outcomes net c dnm limit).cache = c) ∧
      (∀ p, (get_serious_outcomes net c dnm limit).result = .ok p →
        cacheLookup (get_serious_outcomes net c dnm limit).cache
          (seriousCacheKey (processDrugName dnm) limit) = some p)) ∧
    ((∀ v, dnm ≠ "" → evn ≠ "" →
        cacheLookup c (timeSeriesCacheKey (processDrugName dnm) (pyStrip (pyLower evn)))
          = some v →
        get_time_series_data net c dnm evn = ⟨.ok v, [], c⟩) ∧
      ((get_time_series_data net c dnm evn).result.isOk = false →
        (get_time_series_data net c dnm evn).cache = c) ∧
      (∀ p, (get_time_series_data net c dnm evn).result = .ok p →
        cacheLookup (get_time_series_data net c dnm evn).cache
          (timeSeriesCacheKey (processDrugName dnm) (pyStrip (pyLower evn)))
          = some p)) ∧
    ((∀ v, dnm ≠ "" →
        cacheLookup c (reportSourceCacheKey (processDrugName dnm) limit) = some v →
        get_report_source_data net c dnm limit = ⟨.ok v, [], c⟩) ∧
      ((get_report_source_data net c dnm limit).result.isOk = false →
        (get_report_source_data net c dnm limit).cache = c) ∧
      (∀ p, (get_report_source_data net c dnm limit).result = .ok p →
        cacheLookup (get_report_source_data net c dnm limit).cache
          (reportSourceCacheKey (processDrugName dnm) limit) = some p)) := by
  refine ⟨⟨?_, ?_, ?_⟩, ⟨?_, ?_, ?_⟩, ⟨?_, ?_, ?_⟩, ⟨?_, ?_, ?_⟩, ⟨?_, ?_, ?_⟩⟩
  · exact fun v h1 h2 => top_hit net c dnm limit ps ar v h1 h2
  · exact (top_cache_discipline net c dnm limit ps ar).1
  · exact (top_cache_discipline net c dnm limit ps ar).2
  · intro v h1 h2 hv
    exact pair_hit net c dnm evn v (by simp [h1, h2]) hv
  · exact (pair_cache_discipline net c dnm evn).1
  · exact (pair_cache_discipline net c dnm evn).2
  · exact fun v h1 h2 => serious_hit net c dnm limit v h1 h2
  · exact (serious_cache_discipline net c dnm limit).1
  · exact (serious_cache_discipline net c dnm limit).2
  · intro v h1 h2 hv
    exact series_hit net c dnm evn v (by simp [h1, h2]) hv
  · exact (series_cache_discipline net c dnm evn).1
  · exact (series_cache_discipline net c dnm evn).2
  · exact fun v h1 h2 => source_hit net c dnm limit v h1 h2
  · exact (source_cache_discipline net c dnm limit).1
  · exact (source_cache_discipline net c dnm limit).2

theorem claim7_witness :
    get_top_adverse_events netOk
        [(topCacheKey "aspirin" 10 none none, cachedPayload)] "aspirin" 10 none none
      = ⟨.ok cachedPayload, [],
         [(topCacheKey "aspirin" 10 none none, cachedPayload)]⟩ ∧
    (get_top_adverse_events netDown [] "aspirin" 10 none none).cache = [] ∧
    cacheLookup (get_top_adverse_events netOk [] "aspirin" 10 none none).cache
        (topCacheKey (processDrugName "aspirin") 10 none none)
      = some ⟨some [⟨"headache", 200⟩, ⟨"nausea", 80⟩], some 500, some 500, none⟩ := by
  refine ⟨?_, ?_, ?_⟩
  · exact (claim7_cache_discipline netOk
      [(topCacheKey "aspirin" 10 none none, cachedPayload)] "aspirin" "rash"
      10 none none).1.1 cachedPayload (by decide) (by decide)
  · exact (claim7_cache_discipline netDown [] "aspirin" "rash"
      10 none none).1.2.1 (by decide)
  · exact (claim7_cache_discipline netOk [] "aspirin" "rash" 10 none none).1.2.2
      ⟨some [⟨"headache", 200⟩, ⟨"nausea", 80⟩], some 500, some 500, none⟩ (by decide)

/-- C4 counterexample: on a network where every query succeeds, two calls
of the current `get_top_adverse_events` with identical parameters within
the TTL window issue two network calls in total (the grouped-count query
and the total query, both from the first call), not one. -/
theorem claim4_counterexample :
    (get_top_adverse_events netOk [] "cacheddrug" 10 none none).trace.length
      + (get_top_adverse_events netOk
          (get_top_adverse_events netOk [] "cacheddrug" 10 none none).cache
          "cacheddrug" 10 none none).trace.length = 2 ∧
    ¬((get_top_adverse_events netOk [] "cacheddrug" 10 none none).trace.length
      + (get_top_adverse_events netOk
          (get_top_adverse_events netOk [] "cacheddrug" 10 none none).cache
          "cacheddrug" 10 none none).trace.length = 1) := by
  constructor <;> decide

/-- C4 (amended): within the TTL window, starting from an empty cache, a
successful first call of the current top-adverse-events operation issues
exactly two network calls; a second call with identical parameters issues
none and returns the same result; a third call with a different limit
issues at least one new network call.  The legacy single-query variant
issues exactly one call on the first invocation, none on the second, and
at least one on a call with a different limit. -/
theorem claim4_cache_calls (net : Net) (dnm : String) (h1 : dnm ≠ "") :
    ((get_top_adverse_events net [] dnm 10 none none).result.isOk = true →
      (get_top_adverse_events net [] dnm 10 none none).trace.length = 2 ∧
      (get_top_adverse_events net
         (get_top_adverse_events net [] dnm 10 none none).cache
         dnm 10 none none).trace = [] ∧
      (get_top_adverse_events net
         (get_top_adverse_events net [] dnm 10 none none).cache
         dnm 10 none none).result
        = (get_top_adverse_events net [] dnm 10 none none).result ∧
      (get_top_adverse_events net
         (get_top_adverse_events net [] dnm 10 none none).cache
         dnm 20 none none).trace ≠ []) ∧
    ((legacy_get_top_adverse_events net [] dnm 10).result.isOk = true →
      (legacy_get_top_adverse_events net [] dnm 10).trace.length = 1 ∧
      (legacy_get_top_adverse_events net
         (legacy_get_top_adverse_events net [] dnm 10).cache dnm 10).trace = [] ∧
      (legacy_get_top_adverse_events net
         (legacy_get_top_adverse_events net [] dnm 10).cache dnm 10).result
        = (legacy_get_top_adverse_events net [] dnm 10).result ∧
      (legacy_get_top_adverse_events net
         (legacy_get_top_adverse_events net [] dnm 10).cache dnm 20).trace ≠ []) := by
  constructor
  · intro hok
    have hm : cacheLookup [] (topCacheKey (processDrugName dnm) 10 none none)
        = none := rfl
    obtain ⟨p, hres⟩ :
        ∃ p, (get_top_adverse_events net [] dnm 10 none none).result = .ok p := by
      rcases hr : (get_top_adverse_events net [] dnm 10 none none).result with e | p
      · rw [hr] at hok
        simp [Res.isOk] at hok
      · exact ⟨p, rfl⟩
    obtain ⟨htrace, hcache⟩ := top_miss_ok_shape net [] dnm 10 none none p h1 hm hres
    have hhit : cacheLookup (get_top_adverse_events net [] dnm 10 none none).cache
        (topCacheKey (processDrugName dnm) 10 none none) = some p := by
      rw [hcache]
      simp [cacheInsert, cacheLookup]
    have hmiss2 : cacheLookup (get_top_adverse_events net [] dnm 10 none none).cache
        (topCacheKey (processDrugName dnm) 20 none none) = none := by
      rw [hcache]
      have hne := topCacheKey_10_ne_20 (processDrugName dnm)
      simp [cacheInsert, cacheLookup, hne]
    refine ⟨by rw [htrace]; rfl, ?_, ?_, ?_⟩
    · rw [top_hit net _ dnm 10 none none p h1 hhit]
    · rw [top_hit net _ dnm 10 none none p h1 hhit, hres]
    · exact top_miss_trace_ne_nil net _ dnm 20 none none h1 hmiss2
  · intro hok
    have hm : cacheLookup [] (legacyTopCacheKey (pyStrip (pyLower dnm)) 10)
        = none := rfl
    obtain ⟨p, hres⟩ :
        ∃ p, (legacy_get_top_adverse_events net [] dnm 10).result = .ok p := by
      rcases hr : (legacy_get_top_adverse_events net [] dnm 10).result with e | p
      · rw [hr] at hok
        simp [Res.isOk] at hok
      · exact ⟨p, rfl⟩
    obtain ⟨htrace, hcache⟩ := legacy_miss_ok_shape net [] dnm 10 p h1 hm hres
    have hhit : cacheLookup (legacy_get_top_adverse_events net [] dnm 10).cache
        (legacyTopCacheKey (pyStrip (pyLower dnm)) 10) = some p := by
      rw [hcache]
      simp [cacheInsert, cacheLookup]
    have hmiss2 : cacheLookup (legacy_get_top_adverse_events net [] dnm 10).cache
        (legacyTopCacheKey (pyStrip (pyLower dnm)) 20) = none := by
      rw [hcache]
      have hne := legacyTopCacheKey_10_ne_20 (pyStrip (pyLower dnm))
      simp [cacheInsert, cacheLookup, hne]
    refine ⟨by rw [htrace]; rfl, ?_, ?_, ?_⟩
    · rw [legacy_hit net _ dnm 10 p h1 hhit]
    · rw [legacy_hit net _ dnm 10 p h1 hhit, hres]
    · exact legacy_miss_trace_ne_nil net _ dnm 20 h1 hmiss2

theorem claim4_witness :
    ((get_top_adverse_events netOk [] "cacheddrug" 10 none none).trace.length = 2 ∧
      (get_top_adverse_events netOk
         (get_top_adverse_events netOk [] "cacheddrug" 10 none none).cache
         "cacheddrug" 10 none none).trace = [] ∧
      (get_top_adverse_events netOk
         (get_top_adverse_events netOk [] "cacheddrug" 10 none none).cache
         "cacheddrug" 10 none none).result
        = (get_top_adverse_events netOk [] "cacheddrug" 10 none none).result ∧
      (get_top_adverse_events netOk
         (get_top_adverse_events netOk [] "cacheddrug" 10 none none).cache
         "cacheddrug" 20 none none).trace ≠ []) ∧
    ((legacy_get_top_adverse_events netOk [] "cacheddrug" 10).trace.length = 1 ∧
      (legacy_get_top_adverse_events netOk
         (legacy_get_top_adverse_events netOk [] "cacheddrug" 10).cache
         "cacheddrug" 10).trace = [] ∧
      (legacy_get_top_adverse_events netOk
         (legacy_get_top_adverse_events netOk [] "cacheddrug" 10).cache
         "cacheddrug" 10).result
        = (legacy_get_top_adverse_events netOk [] "cacheddrug" 10).result ∧
      (legacy_get_top_adverse_events netOk
         (legacy_get_top_adverse_events netOk [] "cacheddrug" 10).cache
         "cacheddrug" 20).trace ≠ []) :=
  ⟨(claim4_cache_calls netOk "cacheddrug" (by decide)).1 (by decide),
   (claim4_cache_calls netOk "cacheddrug" (by decide)).2 (by decide)⟩

end ADE

